import Mathlib

/-!
Shallow embedding of the voice-session backend
(`src/backend/app.py`, `src/backend/voice_worker.py`).

Conventions of the embedding:
* Python dicts holding string keys become association lists
  `List (String × _)`; `del d[k]` becomes a filter on keys, lookup is
  first-match.
* A `multiprocessing.Process` handle stored in a session entry is
  abstracted by the Boolean `processAlive`, the value of
  `process is not None and process.is_alive()` at the moment an
  operation inspects it (every registered entry holds a process handle,
  so the `process and` guard in the source reduces to aliveness).
* External collaborators (Daily room provisioning, OpenAI embeddings,
  Supabase RPC) are modelled by passing their observable outcome as an
  explicit argument.
-/

/-- One conversation turn, `{"role": ..., "content": ...}` in
`voice_worker.py`. -/
structure Msg where
  role : String
  content : String
deriving DecidableEq, Repr

/-- `ContextManager.MAX_MESSAGES` (voice_worker.py line 53). -/
def MAX_MESSAGES : Nat := 20

/-- `ContextManager.__init__`: the message list starts with the single
system turn (voice_worker.py lines 55-57). -/
def init_messages (system_prompt : String) : List Msg :=
  [⟨"system", system_prompt⟩]

/-- `ContextManager.trim_if_needed` (voice_worker.py lines 63-66):
if the list exceeds `MAX_MESSAGES`, keep `messages[0]` plus the last 19
(`self.messages = [self.messages[0]] + self.messages[-19:]`). -/
def trim_if_needed (m : List Msg) : List Msg :=
  if m.length > MAX_MESSAGES then m.take 1 ++ m.drop (m.length - 19) else m

/-- `ContextManager.add_message` (voice_worker.py lines 59-61):
append the turn, then trim. -/
def add_message (m : List Msg) (role content : String) : List Msg :=
  trim_if_needed (m ++ [⟨role, content⟩])

/-- `ContextManager.update_system_prompt` (voice_worker.py lines 68-70):
overwrite the content of `messages[0]` in place.  The source indexes
`self.messages[0]`, which is always present because the constructor
seeds the system turn; on an (unreachable) empty list we return it
unchanged. -/
def update_system_prompt (m : List Msg) (new_prompt : String) : List Msg :=
  match m with
  | [] => []
  | first :: rest => ⟨first.role, new_prompt⟩ :: rest

/-- Run a whole sequence of `add_message` calls. -/
def run_adds (m : List Msg) (ops : List (String × String)) : List Msg :=
  ops.foldl (fun acc rc => add_message acc rc.1 rc.2) m

lemma trim_if_needed_length_le (m : List Msg) :
    (trim_if_needed m).length ≤ MAX_MESSAGES := by
  unfold trim_if_needed
  split
  · rename_i hgt
    simp only [List.length_append, List.length_take, List.length_drop]
    have : MAX_MESSAGES = 20 := rfl
    omega
  · omega

lemma trim_if_needed_head (m : List Msg) (d : Msg) (h : m ≠ []) :
    (trim_if_needed m).headD d = m.headD d := by
  unfold trim_if_needed
  cases m with
  | nil => simp at h
  | cons a rest => split <;> simp

lemma trim_if_needed_ne_nil (m : List Msg) (h : m ≠ []) :
    trim_if_needed m ≠ [] := by
  unfold trim_if_needed
  cases m with
  | nil => simp at h
  | cons a rest => split <;> simp

lemma add_message_length_le (m : List Msg) (r c : String) :
    (add_message m r c).length ≤ MAX_MESSAGES := by
  unfold add_message
  apply trim_if_needed_length_le

lemma add_message_head (m : List Msg) (r c : String) (d : Msg) (h : m ≠ []) :
    (add_message m r c).headD d = m.headD d := by
  unfold add_message
  rw [trim_if_needed_head _ _ (by simp)]
  cases m with
  | nil => simp at h
  | cons a rest => simp

lemma add_message_ne_nil (m : List Msg) (r c : String) :
    add_message m r c ≠ [] := by
  unfold add_message
  apply trim_if_needed_ne_nil
  simp

lemma run_adds_cons (m : List Msg) (op : String × String)
    (rest : List (String × String)) :
    run_adds m (op :: rest) = run_adds (add_message m op.1 op.2) rest := rfl

lemma run_adds_invariant (ops : List (String × String)) (m : List Msg) (d : Msg)
    (hne : m ≠ []) (hlen : m.length ≤ MAX_MESSAGES) :
    run_adds m ops ≠ [] ∧ (run_adds m ops).length ≤ MAX_MESSAGES ∧
      (run_adds m ops).headD d = m.headD d := by
  induction ops generalizing m with
  | nil => exact ⟨hne, hlen, rfl⟩
  | cons op rest ih =>
    have hne' := add_message_ne_nil m op.1 op.2
    have hlen' := add_message_length_le m op.1 op.2
    have hstep := ih (add_message m op.1 op.2) hne' hlen'
    rw [run_adds_cons]
    refine ⟨hstep.1, hstep.2.1, ?_⟩
    rw [hstep.2.2, add_message_head m op.1 op.2 d hne]

/-- C2.  For every sequence of `add_message` calls on a `ContextManager`
created with a system prompt, the message list never holds more than
`MAX_MESSAGES = 20` turns and the turn at index 0 is the original system
turn: trimming keeps `messages[0]` and drops only the oldest non-system
turns. -/
theorem context_window_invariant (ops : List (String × String))
    (system_prompt : String) :
    (run_adds (init_messages system_prompt) ops).length ≤ MAX_MESSAGES ∧
      (run_adds (init_messages system_prompt) ops).headD ⟨"", ""⟩ =
        ⟨"system", system_prompt⟩ := by
  have h := run_adds_invariant ops (init_messages system_prompt) ⟨"", ""⟩
    (by simp [init_messages]) (by simp [init_messages, MAX_MESSAGES])
  exact ⟨h.2.1, by rw [h.2.2]; rfl⟩

/-! ## Knowledge-base retrieval and augmentation (`voice_worker.py` 75-169) -/

/-- One row returned by the `match_knowledge_base` RPC; the source reads
`item.get('title', 'Reference')` and `item.get('content', '')`, so both
fields may be absent (voice_worker.py lines 99-102). -/
structure KBItem where
  title : Option String
  content : Option String
deriving DecidableEq, Repr

/-- Observable outcome of the embedding call plus the vector-store RPC
inside `search_knowledge_base`: either some step raised (caught by the
`except` on lines 109-111) or the RPC returned a list of rows. -/
inductive RetrievalOutcome
  | failure
  | results (data : List KBItem)
deriving DecidableEq, Repr

/-- The per-row format string `f"**{item.get('title', 'Reference')}**\n{item.get('content', '')}"`
(voice_worker.py line 100). -/
def format_kb_item (it : KBItem) : String :=
  "**" ++ it.title.getD "Reference" ++ "**\n" ++ it.content.getD ""

/-- `search_knowledge_base` (voice_worker.py lines 75-111): returns `""`
when Supabase is not connected, when the retrieval raises, or when the
RPC returns no rows; otherwise the rows joined by blank lines.  The
function never propagates an exception: the `try` body is wrapped by an
`except` that returns `""`. -/
def search_knowledge_base (supabase_connected : Bool)
    (outcome : RetrievalOutcome) : String :=
  if !supabase_connected then ""
  else
    match outcome with
    | .failure => ""
    | .results data =>
        if data.length > 0 then
          String.intercalate "\n\n" (data.map format_kb_item)
        else ""

/-- The f-string built in `_enhance_context` (voice_worker.py lines
158-163): the fixed base prompt followed by the retrieved context.  It
depends only on `base_prompt` (fixed at processor construction) and
`kb_context`, never on the current system-turn content. -/
def enhanced_prompt (base_prompt kb_context : String) : String :=
  base_prompt ++ "\n\nRELEVANT CONTEXT FROM KNOWLEDGE BASE:\n" ++ kb_context ++
    "\n\nUse this context to provide accurate, personalized answers."

/-- `KnowledgeBaseProcessor._enhance_context` (voice_worker.py lines
148-169): run the retrieval; if it produced a non-empty context string,
replace the system prompt with `enhanced_prompt`, otherwise leave the
context untouched.  Both the inner `search_knowledge_base` and the outer
`try/except` swallow every exception, so the function is total. -/
def enhance_context (base_prompt : String) (msgs : List Msg)
    (supabase_connected : Bool) (outcome : RetrievalOutcome) : List Msg :=
  if search_knowledge_base supabase_connected outcome ≠ "" then
    update_system_prompt msgs
      (enhanced_prompt base_prompt (search_knowledge_base supabase_connected outcome))
  else msgs

/-- `_enhance_context` annotated with how long the retrieval took
(seconds of wall time before `search_knowledge_base` returned).  The
source awaits the retrieval with no timeout — there is no
`asyncio.wait_for` or deadline check anywhere on the path — so the
elapsed time can never influence the result; the wrapper records that
fact by ignoring its first argument. -/
def enhance_context_timed (_retrieval_seconds : Nat) (base_prompt : String)
    (msgs : List Msg) (supabase_connected : Bool)
    (outcome : RetrievalOutcome) : List Msg :=
  enhance_context base_prompt msgs supabase_connected outcome

/-- Content of the turn at index 0 (the system turn). -/
def head_content (msgs : List Msg) : String :=
  (msgs.headD ⟨"", ""⟩).content

lemma update_system_prompt_ne_nil (msgs : List Msg) (p : String)
    (h : msgs ≠ []) : update_system_prompt msgs p ≠ [] := by
  cases msgs with
  | nil => simp at h
  | cons a rest => simp [update_system_prompt]

lemma update_system_prompt_head (msgs : List Msg) (p : String)
    (h : msgs ≠ []) : head_content (update_system_prompt msgs p) = p := by
  cases msgs with
  | nil => simp at h
  | cons a rest => simp [update_system_prompt, head_content]

lemma enhance_context_ne_nil (base_prompt : String) (msgs : List Msg)
    (sup : Bool) (o : RetrievalOutcome) (h : msgs ≠ []) :
    enhance_context base_prompt msgs sup o ≠ [] := by
  unfold enhance_context
  split
  · exact update_system_prompt_ne_nil _ _ h
  · exact h

lemma enhance_context_head_of_nonempty (base_prompt : String)
    (msgs : List Msg) (sup : Bool) (o : RetrievalOutcome)
    (hmsgs : msgs ≠ []) (h : search_knowledge_base sup o ≠ "") :
    head_content (enhance_context base_prompt msgs sup o) =
      enhanced_prompt base_prompt (search_knowledge_base sup o) := by
  unfold enhance_context
  rw [if_pos h]
  exact update_system_prompt_head _ _ hmsgs

/-- C3 (amended).  If the retrieval raises or returns no rows, the
augmentation path is a no-op on the conversation context — the system
prompt stays the unmodified base prompt — and, being a total function,
nothing propagates past the augmenter boundary; this holds for every
elapsed retrieval time. -/
theorem augment_noop_on_failure_or_empty (retrieval_seconds : Nat)
    (base_prompt : String) (msgs : List Msg) (supabase_connected : Bool)
    (outcome : RetrievalOutcome)
    (h : outcome = .failure ∨ outcome = .results []) :
    enhance_context_timed retrieval_seconds base_prompt msgs
      supabase_connected outcome = msgs := by
  rcases h with h | h <;> subst h <;>
    cases supabase_connected <;>
      simp [enhance_context_timed, enhance_context, search_knowledge_base]

/-- C3 witness: a failed retrieval leaves a concrete context unchanged. -/
theorem augment_noop_on_failure_or_empty_witness :
    ((.failure : RetrievalOutcome) = .failure ∨
        (.failure : RetrievalOutcome) = .results []) ∧
      enhance_context_timed 3 "BASE" [⟨"system", "BASE"⟩] true .failure =
        [⟨"system", "BASE"⟩] :=
  ⟨Or.inl rfl,
    augment_noop_on_failure_or_empty 3 "BASE" [⟨"system", "BASE"⟩] true
      .failure (Or.inl rfl)⟩

/-- C3 counterexample.  The claim also asserts that a retrieval which
does not complete within the 4-5 s deadline leaves the base prompt
unmodified; but the code has no deadline: a retrieval that takes 10 s
(beyond any 5 s deadline) and returns a row still rewrites the system
prompt. -/
theorem augment_no_deadline_counterexample :
    10 > 5 ∧
      enhance_context_timed 10 "PERSONA" [⟨"system", "PERSONA"⟩] true
        (.results [⟨some "Doc", some "Fact"⟩]) ≠ [⟨"system", "PERSONA"⟩] := by
  refine ⟨by decide, ?_⟩
  decide

/-- C9.  A successful augmentation writes a system turn whose content is
`enhanced_prompt` of the fixed base prompt and the freshly retrieved
snippets only: the same content results whether or not an earlier
augmentation already ran (independence from the previous system-turn
content, hence last-writer-wins under any completion order), and that
content always extends the base prompt, so the persona instructions are
never corrupted. -/
theorem augment_last_writer_wins (base_prompt : String) (msgs : List Msg)
    (sup1 sup2 : Bool) (o1 o2 : RetrievalOutcome)
    (hmsgs : msgs ≠ [])
    (h2 : search_knowledge_base sup2 o2 ≠ "") :
    head_content (enhance_context base_prompt
        (enhance_context base_prompt msgs sup1 o1) sup2 o2) =
      enhanced_prompt base_prompt (search_knowledge_base sup2 o2) ∧
    head_content (enhance_context base_prompt msgs sup2 o2) =
      enhanced_prompt base_prompt (search_knowledge_base sup2 o2) ∧
    ∃ retrieved_part,
      enhanced_prompt base_prompt (search_knowledge_base sup2 o2) =
        base_prompt ++ retrieved_part := by
  refine ⟨?_, ?_, ?_⟩
  · exact enhance_context_head_of_nonempty base_prompt _ sup2 o2
      (enhance_context_ne_nil base_prompt msgs sup1 o1 hmsgs) h2
  · exact enhance_context_head_of_nonempty base_prompt msgs sup2 o2 hmsgs h2
  · exact ⟨"\n\nRELEVANT CONTEXT FROM KNOWLEDGE BASE:\n" ++
      search_knowledge_base sup2 o2 ++
      "\n\nUse this context to provide accurate, personalized answers.",
      by simp [enhanced_prompt, String.append_assoc]⟩

/-- C9 witness: two augmentations at a concrete context agree with a
single final augmentation on the resulting system content. -/
theorem augment_last_writer_wins_witness :
    ([(⟨"system", "B"⟩ : Msg)] ≠ [] ∧
        search_knowledge_base true (.results [⟨some "T", some "C"⟩]) ≠ "") ∧
      (head_content (enhance_context "B"
          (enhance_context "B" [⟨"system", "B"⟩] true
            (.results [⟨some "T0", some "C0"⟩])) true
          (.results [⟨some "T", some "C"⟩])) =
        enhanced_prompt "B"
          (search_knowledge_base true (.results [⟨some "T", some "C"⟩])) ∧
      head_content (enhance_context "B" [⟨"system", "B"⟩] true
          (.results [⟨some "T", some "C"⟩])) =
        enhanced_prompt "B"
          (search_knowledge_base true (.results [⟨some "T", some "C"⟩])) ∧
      ∃ retrieved_part,
        enhanced_prompt "B"
            (search_knowledge_base true (.results [⟨some "T", some "C"⟩])) =
          "B" ++ retrieved_part) :=
  ⟨⟨by decide, by decide⟩,
    augment_last_writer_wins "B" [⟨"system", "B"⟩] true true
      (.results [⟨some "T0", some "C0"⟩]) (.results [⟨some "T", some "C"⟩])
      (by decide) (by decide)⟩

/-! ## `KnowledgeBaseProcessor.process_frame` (`voice_worker.py` 113-146) -/

/-- Mutable state of a `KnowledgeBaseProcessor`: `self.last_transcript`
(initially `""`) and `self._started` (initially `False`),
voice_worker.py lines 122-123. -/
structure KBProcState where
  last_transcript : String
  started : Bool
deriving DecidableEq, Repr

/-- The frames the processor distinguishes: a `StartFrame`, a
`TextFrame`/`TranscriptionFrame` carrying `text`, and every other frame
kind (audio, control, ...), which it forwards untouched. -/
inductive PFrame
  | start
  | transcription (text : String)
  | other
deriving DecidableEq, Repr

/-- Python `str.strip()`: drop whitespace from both ends, modelled over
the underlying character list. -/
def py_strip (s : String) : String :=
  String.mk
    (((s.data.dropWhile Char.isWhitespace).reverse.dropWhile
      Char.isWhitespace).reverse)

/-- `KnowledgeBaseProcessor.process_frame` (voice_worker.py lines
125-146).  Result: (new state, frames pushed downstream, whether an
`_enhance_context` background task was spawned).  A transcription frame
updates `last_transcript` and spawns the task only when its text is
non-empty, differs from `last_transcript`, and is non-blank after
stripping — and the task additionally requires `user_id`, `_started`
and a Supabase connection.  Every frame, duplicate or not, is pushed
forward (`await self.push_frame(frame, direction)` runs on every path). -/
def process_frame (supabase_connected user_id_present : Bool)
    (st : KBProcState) (frame : PFrame) :
    KBProcState × List PFrame × Bool :=
  match frame with
  | .start => (⟨st.last_transcript, true⟩, [.start], false)
  | .transcription text =>
      if text ≠ "" ∧ text ≠ st.last_transcript ∧ py_strip text ≠ "" then
        (⟨text, st.started⟩, [.transcription text],
          user_id_present && st.started && supabase_connected)
      else
        (st, [.transcription text], false)
  | .other => (st, [.other], false)

/-- Run `process_frame` over a sequence of arriving frames, collecting
all frames pushed downstream and counting the spawned
`_enhance_context` tasks. -/
def process_frames (supabase_connected user_id_present : Bool)
    (st : KBProcState) (frames : List PFrame) :
    KBProcState × List PFrame × Nat :=
  match frames with
  | [] => (st, [], 0)
  | f :: rest =>
      let step := process_frame supabase_connected user_id_present st f
      let next := process_frames supabase_connected user_id_present step.1 rest
      (next.1, step.2.1 ++ next.2.1, (if step.2.2 then 1 else 0) + next.2.2)

/-- Number of transcription frames in a pushed-frame list.  In the
pipeline built in `main` (voice_worker.py lines 253-263) the processor's
output feeds `context_aggregator.user()` and then the LLM, so each
transcription frame it forwards becomes a user turn appended to the
context and a generation trigger downstream. -/
def count_transcriptions (frames : List PFrame) : Nat :=
  frames.countP (fun f => match f with | .transcription _ => true | _ => false)

/-- C1 counterexample.  Two consecutive final transcripts with the
identical text `"hello"`: the claim says the second is ignored so that
only one user turn is appended and one generation triggered, but
`process_frame` pushes every frame forward — both transcription frames
reach the user aggregator and the LLM (count 2, not 1); only the
knowledge-base task is spawned once. -/
theorem duplicate_final_forwarded_counterexample :
    count_transcriptions
        (process_frames true true ⟨"", false⟩
          [.start, .transcription "hello", .transcription "hello"]).2.1 = 2 ∧
      (process_frames true true ⟨"", false⟩
          [.start, .transcription "hello", .transcription "hello"]).2.2 = 1 := by
  refine ⟨?_, ?_⟩ <;> decide

/-- C1 (amended).  For two consecutively arriving final transcripts with
identical (non-blank, fresh) text, the `_enhance_context` retrieval task
is spawned at most once — the duplicate is ignored for knowledge-base
augmentation only — while both frames are pushed downstream unchanged,
so user-turn appending and generation triggering are not deduplicated by
this processor. -/
theorem duplicate_final_kb_only (supabase_connected user_id_present : Bool)
    (st : KBProcState) (t : String)
    (h1 : t ≠ "") (h2 : py_strip t ≠ "") (h3 : st.started = true)
    (h4 : st.last_transcript ≠ t) :
    (process_frames supabase_connected user_id_present st
        [.transcription t, .transcription t]).2.1 =
      [.transcription t, .transcription t] ∧
    (process_frames supabase_connected user_id_present st
        [.transcription t, .transcription t]).2.2 =
      (if user_id_present && supabase_connected then 1 else 0) := by
  have hcond : t ≠ "" ∧ t ≠ st.last_transcript ∧ py_strip t ≠ "" :=
    ⟨h1, Ne.symm h4, h2⟩
  have hcond2 : ¬(t ≠ "" ∧ t ≠ t ∧ py_strip t ≠ "") := by
    intro hc
    exact hc.2.1 rfl
  simp only [process_frames, process_frame, if_pos hcond, if_neg hcond2, h3,
    List.append_nil, List.cons_append, List.nil_append]
  constructor
  · trivial
  · cases user_id_present <;> cases supabase_connected <;> simp

/-- C1 amended witness: text `"hi"` arriving twice in a started,
KB-enabled processor spawns one retrieval task and forwards two frames. -/
theorem duplicate_final_kb_only_witness :
    ("hi" ≠ "" ∧ py_strip "hi" ≠ "" ∧
        (⟨"", true⟩ : KBProcState).started = true ∧
        (⟨"", true⟩ : KBProcState).last_transcript ≠ "hi") ∧
      ((process_frames true true ⟨"", true⟩
          [.transcription "hi", .transcription "hi"]).2.1 =
        [.transcription "hi", .transcription "hi"] ∧
      (process_frames true true ⟨"", true⟩
          [.transcription "hi", .transcription "hi"]).2.2 =
        (if true && true then 1 else 0)) :=
  ⟨⟨by decide, by decide, rfl, by decide⟩,
    duplicate_final_kb_only true true ⟨"", true⟩ "hi"
      (by decide) (by decide) rfl (by decide)⟩

/-! ## Session registry (`src/backend/app.py`) -/

/-- `MAX_CONCURRENT_CALLS` (app.py line 38). -/
def MAX_CONCURRENT_CALLS : Nat := 50

/-- One value of the `active_sessions` dict (app.py lines 171-176):
room bookkeeping plus the spawned bot process, whose handle is
abstracted by `process_alive` (see the file header). -/
structure SessionEntry where
  room_name : String
  room_url : String
  process_alive : Bool
  started_at : Nat
deriving DecidableEq, Repr

/-- The `active_sessions` dict (app.py line 37), keyed by `user_id`. -/
abbrev Registry := List (String × SessionEntry)

/-- Dict lookup `active_sessions[user_id]` / `user_id in active_sessions`. -/
def lookup_session (reg : Registry) (user_id : String) : Option SessionEntry :=
  match reg with
  | [] => none
  | (k, v) :: rest =>
      if k = user_id then some v else lookup_session rest user_id

/-- Dict deletion `del active_sessions[user_id]`. -/
def erase_session (reg : Registry) (user_id : String) : Registry :=
  reg.filter (fun p => decide (p.1 ≠ user_id))

/-- Outcome of the `/start-session` handler, abstracting the HTTP bodies:
`server_busy` is the 503 "Server busy" response (the spec's
`CapacityExceeded`), `already_active` the 409 "You already have an
active call" response (the spec's `AlreadyActive`), `started` the
success body. -/
inductive StartOutcome
  | server_busy
  | already_active
  | started (room_url room_name : String)
deriving DecidableEq, Repr

/-- `start_session` (app.py lines 124-194).  In order: reject when the
dict already holds `MAX_CONCURRENT_CALLS` entries; reject when the
caller already maps to an entry whose process is alive; delete a stale
entry (dead process) and fall through; then provision a room and spawn
the bot (both external — their results `room_name`, `room_url` and a
fresh, alive process are passed in) and register the new entry.  The
registry is returned unchanged on both rejection paths. -/
def start_session (reg : Registry) (user_id room_name room_url : String)
    (now : Nat) : StartOutcome × Registry :=
  if reg.length ≥ MAX_CONCURRENT_CALLS then
    (.server_busy, reg)
  else
    match lookup_session reg user_id with
    | some old_session =>
        if old_session.process_alive then
          (.already_active, reg)
        else
          (.started room_url room_name,
            (user_id, ⟨room_name, room_url, true, now⟩) ::
              erase_session reg user_id)
    | none =>
        (.started room_url room_name,
          (user_id, ⟨room_name, room_url, true, now⟩) :: reg)

/-- `end_session` (app.py lines 197-230): when the caller holds an
entry, terminate its process, delete the room (external, best-effort)
and remove the entry; in every case respond `{"success": True}`. -/
def end_session (reg : Registry) (user_id : String) : Bool × Registry :=
  match lookup_session reg user_id with
  | some _ => (true, erase_session reg user_id)
  | none => (true, reg)

/-- The `dead_sessions` list built by the first loop of `health`
(app.py lines 237-241): the keys of every entry whose process is no
longer alive. -/
def dead_sessions (reg : Registry) : List String :=
  (reg.filter (fun p => !p.2.process_alive)).map Prod.fst

/-- The second loop of `health` (app.py lines 242-243): delete each
collected key from the dict. -/
def reconcile (reg : Registry) : Registry :=
  (dead_sessions reg).foldl (fun r uid => erase_session r uid) reg

/-- `health` (app.py lines 233-251): first collect every `user_id` whose
process is no longer alive, then delete those entries, then report
`len(active_sessions)` and `MAX_CONCURRENT_CALLS`. -/
def health (reg : Registry) : Registry × Nat × Nat :=
  (reconcile reg, (reconcile reg).length, MAX_CONCURRENT_CALLS)

/-- C4.  A start request arriving when the registry already holds
`MAX_CONCURRENT_CALLS` entries deterministically fails with the
capacity error and leaves the registry unchanged — no entry is added or
removed. -/
theorem try_admit_capacity (reg : Registry) (user_id room_name room_url : String)
    (now : Nat) (h : reg.length ≥ MAX_CONCURRENT_CALLS) :
    start_session reg user_id room_name room_url now = (.server_busy, reg) := by
  unfold start_session
  rw [if_pos h]

/-- C4 witness: a registry of exactly 50 entries rejects `"u1"` and is
left unchanged. -/
theorem try_admit_capacity_witness :
    ((List.range 50).map
        (fun i => (toString i, (⟨"r", "u", true, 0⟩ : SessionEntry)))).length ≥
      MAX_CONCURRENT_CALLS ∧
    start_session
        ((List.range 50).map
          (fun i => (toString i, (⟨"r", "u", true, 0⟩ : SessionEntry))))
        "u1" "room" "url" 7 =
      (.server_busy,
        (List.range 50).map
          (fun i => (toString i, (⟨"r", "u", true, 0⟩ : SessionEntry)))) :=
  ⟨by simp [MAX_CONCURRENT_CALLS],
    try_admit_capacity _ "u1" "room" "url" 7 (by simp [MAX_CONCURRENT_CALLS])⟩

/-- C5.  A start request for an identity that already maps to an entry
whose bot process is alive is rejected with the already-active error and
registers nothing: the registry is returned unchanged, so the identity
never holds two live sessions. -/
theorem try_admit_already_active (reg : Registry)
    (user_id room_name room_url : String) (now : Nat) (e : SessionEntry)
    (hcap : reg.length < MAX_CONCURRENT_CALLS)
    (hfound : lookup_session reg user_id = some e)
    (halive : e.process_alive = true) :
    start_session reg user_id room_name room_url now =
      (.already_active, reg) := by
  unfold start_session
  rw [if_neg (by omega), hfound]
  simp [halive]

/-- C5 witness: identity `"u1"` with a live session is rejected. -/
theorem try_admit_already_active_witness :
    (([("u1", (⟨"r", "u", true, 3⟩ : SessionEntry))] : Registry).length <
        MAX_CONCURRENT_CALLS ∧
      lookup_session [("u1", ⟨"r", "u", true, 3⟩)] "u1" =
        some ⟨"r", "u", true, 3⟩ ∧
      (⟨"r", "u", true, 3⟩ : SessionEntry).process_alive = true) ∧
    start_session [("u1", ⟨"r", "u", true, 3⟩)] "u1" "room" "url" 9 =
      (.already_active, [("u1", ⟨"r", "u", true, 3⟩)]) :=
  ⟨⟨by decide, by decide, rfl⟩,
    try_admit_already_active [("u1", ⟨"r", "u", true, 3⟩)] "u1" "room" "url" 9
      ⟨"r", "u", true, 3⟩ (by decide) (by decide) rfl⟩

lemma lookup_session_erase (reg : Registry) (user_id : String) :
    lookup_session (erase_session reg user_id) user_id = none := by
  induction reg with
  | nil => rfl
  | cons p rest ih =>
      by_cases hk : p.1 = user_id
      · simpa [erase_session, hk] using ih
      · simpa [erase_session, lookup_session, hk] using ih

/-- C6.  `end_session` is idempotent and always reports success: the
first call removes the identity's entry (if any); running it again on
the resulting registry observes no entry, changes nothing, and still
returns `{"success": True}` — two calls have the same observable effect
on the registry as one. -/
theorem release_idempotent (reg : Registry) (user_id : String) :
    (end_session reg user_id).1 = true ∧
    end_session (end_session reg user_id).2 user_id =
      (true, (end_session reg user_id).2) ∧
    lookup_session (end_session reg user_id).2 user_id = none := by
  unfold end_session
  cases hfound : lookup_session reg user_id with
  | none => exact ⟨rfl, by simp [hfound], hfound⟩
  | some e =>
      refine ⟨rfl, ?_, lookup_session_erase reg user_id⟩
      simp [lookup_session_erase reg user_id]

lemma foldl_erase_eq_filter (ks : List String) (reg : Registry) :
    ks.foldl (fun r uid => erase_session r uid) reg =
      reg.filter (fun p => decide (p.1 ∉ ks)) := by
  induction ks generalizing reg with
  | nil => simp
  | cons k rest ih =>
      rw [List.foldl_cons, ih]
      unfold erase_session
      rw [List.filter_filter]
      apply List.filter_congr
      intro p hp
      by_cases h1 : p.1 = k <;> by_cases h2 : p.1 ∈ rest <;>
        simp [h1, h2, List.mem_cons]

lemma reconcile_eq_filter_alive (reg : Registry)
    (hkeys : (reg.map Prod.fst).Nodup) :
    reconcile reg = reg.filter (fun p => p.2.process_alive) := by
  unfold reconcile
  rw [foldl_erase_eq_filter]
  apply List.filter_congr
  intro p hp
  cases halive : p.2.process_alive with
  | true =>
      have hnot : p.1 ∉ dead_sessions reg := by
        intro hmem
        rcases List.mem_map.mp hmem with ⟨q, hq, hkey⟩
        have hq' := List.mem_filter.mp hq
        have heq : q = p := List.inj_on_of_nodup_map hkeys hq'.1 hp hkey
        rw [heq] at hq'
        rw [halive] at hq'
        simp at hq'
      simp [hnot]
  | false =>
      have hmem : p.1 ∈ dead_sessions reg := by
        apply List.mem_map.mpr
        exact ⟨p, List.mem_filter.mpr ⟨hp, by simp [halive]⟩, rfl⟩
      simp [hmem]

/-- C7.  Provided the registry keys are distinct (the Python dict
invariant), the health query first removes exactly the entries whose bot
process has terminated and only then counts: the reconciled registry
keeps precisely the live sessions, the reported `active_calls` equals
the number of entries whose process is still alive, and `max_calls` is
the session limit. -/
theorem health_reports_live_sessions (reg : Registry)
    (hkeys : (reg.map Prod.fst).Nodup) :
    (health reg).1 = reg.filter (fun p => p.2.process_alive) ∧
    (health reg).2.1 = reg.countP (fun p => p.2.process_alive) ∧
    (health reg).2.2 = MAX_CONCURRENT_CALLS := by
  refine ⟨reconcile_eq_filter_alive reg hkeys, ?_, rfl⟩
  show (reconcile reg).length = _
  rw [reconcile_eq_filter_alive reg hkeys, List.countP_eq_length_filter]

/-- C7 witness: a registry holding one live and one dead session reports
exactly the live one. -/
theorem health_reports_live_sessions_witness :
    (([("u1", (⟨"r1", "a", true, 0⟩ : SessionEntry)),
        ("u2", (⟨"r2", "b", false, 0⟩ : SessionEntry))] : Registry).map
        Prod.fst).Nodup ∧
    ((health [("u1", ⟨"r1", "a", true, 0⟩), ("u2", ⟨"r2", "b", false, 0⟩)]).1 =
        ([("u1", ⟨"r1", "a", true, 0⟩),
          ("u2", ⟨"r2", "b", false, 0⟩)] : Registry).filter
          (fun p => p.2.process_alive) ∧
      (health [("u1", ⟨"r1", "a", true, 0⟩),
          ("u2", ⟨"r2", "b", false, 0⟩)]).2.1 =
        ([("u1", ⟨"r1", "a", true, 0⟩),
          ("u2", ⟨"r2", "b", false, 0⟩)] : Registry).countP
          (fun p => p.2.process_alive) ∧
      (health [("u1", ⟨"r1", "a", true, 0⟩),
          ("u2", ⟨"r2", "b", false, 0⟩)]).2.2 = MAX_CONCURRENT_CALLS) :=
  ⟨by decide,
    health_reports_live_sessions
      [("u1", ⟨"r1", "a", true, 0⟩), ("u2", ⟨"r2", "b", false, 0⟩)]
      (by decide)⟩

/-- C10.  A start request for an identity whose registered entry refers
to a dead bot process is not rejected: when capacity allows, the stale
entry is deleted, the request succeeds, and the identity maps (uniquely)
to the freshly registered session. -/
theorem try_admit_stale_replaced (reg : Registry)
    (user_id room_name room_url : String) (now : Nat) (e : SessionEntry)
    (hcap : reg.length < MAX_CONCURRENT_CALLS)
    (hfound : lookup_session reg user_id = some e)
    (hdead : e.process_alive = false) :
    (start_session reg user_id room_name room_url now).1 =
      .started room_url room_name ∧
    (start_session reg user_id room_name room_url now).2 =
      (user_id, ⟨room_name, room_url, true, now⟩) ::
        erase_session reg user_id ∧
    ∀ v, (user_id, v) ∈ (start_session reg user_id room_name room_url now).2 →
      v = ⟨room_name, room_url, true, now⟩ := by
  have hmain : start_session reg user_id room_name room_url now =
      (.started room_url room_name,
        (user_id, ⟨room_name, room_url, true, now⟩) ::
          erase_session reg user_id) := by
    unfold start_session
    rw [if_neg (by omega), hfound]
    simp [hdead]
  refine ⟨by rw [hmain], by rw [hmain], ?_⟩
  intro v hv
  rw [hmain] at hv
  rcases List.mem_cons.mp hv with hv | hv
  · exact congrArg Prod.snd hv
  · exfalso
    have := (List.mem_filter.mp hv).2
    simp at this

/-- C10 witness: identity `"u1"` holding a dead-process entry is
re-admitted and ends up mapped to the fresh session only. -/
theorem try_admit_stale_replaced_witness :
    (([("u1", (⟨"r0", "a0", false, 0⟩ : SessionEntry))] : Registry).length <
        MAX_CONCURRENT_CALLS ∧
      lookup_session [("u1", ⟨"r0", "a0", false, 0⟩)] "u1" =
        some ⟨"r0", "a0", false, 0⟩ ∧
      (⟨"r0", "a0", false, 0⟩ : SessionEntry).process_alive = false) ∧
    ((start_session [("u1", ⟨"r0", "a0", false, 0⟩)] "u1" "room" "url" 5).1 =
        .started "url" "room" ∧
      (start_session [("u1", ⟨"r0", "a0", false, 0⟩)] "u1" "room" "url" 5).2 =
        ("u1", ⟨"room", "url", true, 5⟩) ::
          erase_session [("u1", ⟨"r0", "a0", false, 0⟩)] "u1" ∧
      ∀ v, ("u1", v) ∈
          (start_session [("u1", ⟨"r0", "a0", false, 0⟩)] "u1" "room" "url" 5).2 →
        v = ⟨"room", "url", true, 5⟩) :=
  ⟨⟨by decide, by decide, rfl⟩,
    try_admit_stale_replaced [("u1", ⟨"r0", "a0", false, 0⟩)] "u1" "room" "url" 5
      ⟨"r0", "a0", false, 0⟩ (by decide) (by decide) rfl⟩

/-! ## Worker startup credential check (`voice_worker.py` 171-320) -/

/-- Python truthiness of an environment credential: `os.getenv` yields
`None` when the variable is unset, and `not value` is also true for the
empty string. -/
def cred_missing : Option String → Bool
  | none => true
  | some s => s == ""

/-- Result of the worker process `main`: either it refuses to run
because a required credential is absent (voice_worker.py lines 190-195,
the early `return` before any service or pipeline object is built), or
it assembles and runs the pipeline with the stage list of lines 253-273
(the knowledge-base stage is present only when both the OpenAI client
and Supabase are available). -/
inductive WorkerOutcome
  | missing_credentials
  | pipeline_ran (stages : List String)
deriving DecidableEq, Repr

/-- The stage chain wired by `main` (voice_worker.py lines 253-273). -/
def pipeline_stages (kb_enabled : Bool) : List String :=
  if kb_enabled then
    ["transport.input", "stt", "kb_processor", "context_aggregator.user",
      "llm", "tts", "transport.output", "context_aggregator.assistant"]
  else
    ["transport.input", "stt", "context_aggregator.user",
      "llm", "tts", "transport.output", "context_aggregator.assistant"]

/-- `main` (voice_worker.py lines 171-320), reduced to its control flow
on credentials: read `CARTESIA_API_KEY`, `OPENAI_API_KEY` and
`CARTESIA_VOICE_ID`; if any is missing, log and return before the
transport, the STT/LLM/TTS services or the pipeline are created, so no
stage ever starts consuming audio; otherwise build and run the pipeline. -/
def worker_main (cartesia_api_key openai_api_key voice_id : Option String)
    (kb_enabled : Bool) : WorkerOutcome :=
  if cred_missing cartesia_api_key || cred_missing openai_api_key ||
      cred_missing voice_id then
    .missing_credentials
  else
    .pipeline_ran (pipeline_stages kb_enabled)

/-- C8.  If any required capability credential — the Cartesia
(recognizer/synthesizer) key, the OpenAI (generator) key, or the voice
identifier — is absent or empty, the worker process refuses to run at
its start: `main` returns before any pipeline stage is constructed, so
no half-initialized pipeline ever consumes audio. -/
theorem worker_fail_fast_missing_credentials
    (cartesia_api_key openai_api_key voice_id : Option String)
    (kb_enabled : Bool)
    (h : cred_missing cartesia_api_key = true ∨
      cred_missing openai_api_key = true ∨ cred_missing voice_id = true) :
    worker_main cartesia_api_key openai_api_key voice_id kb_enabled =
      .missing_credentials := by
  unfold worker_main
  rcases h with h | h | h <;> simp [h]

/-- C8 witness: a worker started without `OPENAI_API_KEY` never builds
the pipeline. -/
theorem worker_fail_fast_missing_credentials_witness :
    (cred_missing (some "ck") = true ∨ cred_missing (none : Option String) = true ∨
        cred_missing (some "v") = true) ∧
      worker_main (some "ck") none (some "v") true = .missing_credentials :=
  ⟨Or.inr (Or.inl rfl),
    worker_fail_fast_missing_credentials (some "ck") none (some "v") true
      (Or.inr (Or.inl rfl))⟩
